import Mathlib

/-!
Shallow embedding of the dual-representation markdown editor (`src/script.js`)
and proofs of the specified synchronization properties.

Modelling conventions:
* The DOM state touched by the script is collected in `EditorState`:
  `editor.value` (the markup text), `visual.innerHTML` (the rich tree, which the
  code only ever handles as an HTML string), `gutter.innerHTML`, the
  `localStorage` slot `md_content`, and the textarea selection.
* The external converters `marked.parse` and `turndownService.turndown` are
  external collaborators: they appear as function parameters
  (`String → String`, or `String → Except E String` when modelling a throwing
  converter).
* The two debounced wrappers built at lines 33–43 each own one pending timer;
  `SysState` carries the pending fire time of each wrapper plus an
  instrumentation counter of how many times the `trigger` of each wrapper was
  invoked.  Per the browser event model, programmatic assignments to
  `visual.innerHTML` and `editor.value` do not dispatch `input` events, so the
  `input` listeners (lines 46–47) — the only sources of trigger calls for the
  sync wrappers besides the explicit calls in the command handlers — run only
  on genuine user edits.
* JavaScript string indices are UTF-16 units; all the characters this program
  manipulates are in the BMP, so one Lean `Char` per unit is faithful.
-/

/-- State of the DOM pieces and the persistence slot used by `script.js`. -/
structure EditorState where
  /-- `editor.value` — the MarkupText representation. -/
  editorValue : String
  /-- `visual.innerHTML` — the RichTree representation, held as an HTML string. -/
  visualHTML : String
  /-- `gutter.innerHTML` — the line-number gutter. -/
  gutterHTML : String
  /-- `localStorage.getItem(md_content)`: `none` when the key is absent. -/
  localStorage : Option String
  /-- `editor.selectionStart` (character index). -/
  selStart : Nat
  /-- `editor.selectionEnd` (character index). -/
  selEnd : Nat
  deriving Repr, DecidableEq

/-- Splitting a character list at every occurrence of `c`, mirroring the
semantics of JavaScript `String.prototype.split` with a one-character
separator (splitting the empty string yields one empty piece, and a trailing
separator yields a trailing empty piece). -/
def splitOnChar (c : Char) : List Char → List (List Char)
  | [] => [[]]
  | x :: xs =>
    let r := splitOnChar c xs
    if x = c then [] :: r
    else
      match r with
      | [] => [[x]]
      | y :: ys => (x :: y) :: ys

/-- JavaScript `s.split` at the newline character, on a Lean string. -/
def jsSplitNewline (s : String) : List String :=
  (splitOnChar '\n' s.data).map String.mk

/-- JavaScript `s.substring(a, b)` (and `s.substring(a)` via `b = s.length`). -/
def jsSubstring (s : String) (a b : Nat) : String :=
  String.mk ((s.data.take b).drop a)

/-- `saveToLocal` (script.js:23–25): `localStorage.setItem(md_content, editor.value)`. -/
def saveToLocal (s : EditorState) : EditorState :=
  { s with localStorage := some s.editorValue }

/-- The gutter text computed by `updateGutter` for a given markup text:
`Array.from of lines, (_, i) => i + 1, joined with <br>` where
`lines` is the number of newline-separated pieces of `editor.value`. -/
def gutterFor (markup : String) : String :=
  let lines := (jsSplitNewline markup).length
  String.intercalate "<br>" ((List.range lines).map (fun i => toString (i + 1)))

/-- `updateGutter` (script.js:27–30). -/
def updateGutter (s : EditorState) : EditorState :=
  { s with gutterHTML := gutterFor s.editorValue }

/-- Body of the debounced `syncCodeToVisual` (script.js:33–37):
`visual.innerHTML = marked.parse(editor.value); updateGutter(); saveToLocal();`.
`parse` is the external `marked.parse`. -/
def syncCodeToVisualAction (parse : String → String) (s : EditorState) : EditorState :=
  saveToLocal (updateGutter { s with visualHTML := parse s.editorValue })

/-- Body of the debounced `syncVisualToCode` (script.js:39–43):
`editor.value = turndownService.turndown(visual.innerHTML); updateGutter(); saveToLocal();`.
`turndown` is the external `turndownService.turndown`. -/
def syncVisualToCodeAction (turndown : String → String) (s : EditorState) : EditorState :=
  saveToLocal (updateGutter { s with editorValue := turndown s.visualHTML })

/-- Whole-system state: the DOM/persistence state plus the state of the two
debounced wrappers created at script.js:33–43.  `c2vPending`/`v2cPending` hold
the scheduled fire time of that wrapper, a single timeout (`none` when no
invocation is scheduled); `c2vTriggers`/`v2cTriggers` count how many times each
wrapper has been called. -/
structure SysState where
  app : EditorState
  c2vPending : Option Nat
  v2cPending : Option Nat
  c2vTriggers : Nat
  v2cTriggers : Nat
  deriving Repr, DecidableEq

/-- The debounce delay used for both wrappers (script.js:37, 43). -/
def syncDelay : Nat := 50

/-- Calling the debounced `syncCodeToVisual()` wrapper at time `now`:
`clearTimeout` of any previous timer, then `setTimeout(body, 50)`. -/
def triggerC2V (now : Nat) (s : SysState) : SysState :=
  { s with c2vPending := some (now + syncDelay), c2vTriggers := s.c2vTriggers + 1 }

/-- Calling the debounced `syncVisualToCode()` wrapper at time `now`. -/
def triggerV2C (now : Nat) (s : SysState) : SysState :=
  { s with v2cPending := some (now + syncDelay), v2cTriggers := s.v2cTriggers + 1 }

/-- The markup→tree debounce timer fires: the timer is consumed and the
`syncCodeToVisual` body (script.js:34–36) runs.  The programmatic assignment to
`visual.innerHTML` dispatches no `input` event, so no listener runs. -/
def fireC2V (parse : String → String) (s : SysState) : SysState :=
  { s with app := syncCodeToVisualAction parse s.app, c2vPending := none }

/-- The tree→markup debounce timer fires: the timer is consumed and the
`syncVisualToCode` body (script.js:40–42) runs.  The programmatic assignment to
`editor.value` dispatches no `input` event, so no listener runs. -/
def fireV2C (turndown : String → String) (s : SysState) : SysState :=
  { s with app := syncVisualToCodeAction turndown s.app, v2cPending := none }

/-- A user edit of the markup view: the textarea contents (and selection)
change and the `input` listener (script.js:46) calls `syncCodeToVisual()`. -/
def userEditMarkup (now : Nat) (newVal : String) (selS selE : Nat) (s : SysState) : SysState :=
  triggerC2V now
    { s with app := { s.app with editorValue := newVal, selStart := selS, selEnd := selE } }

/-- A user edit of the rendered view: `visual.innerHTML` changes and the
`input` listener (script.js:47) calls `syncVisualToCode()`. -/
def userEditVisual (now : Nat) (newHTML : String) (s : SysState) : SysState :=
  triggerV2C now { s with app := { s.app with visualHTML := newHTML } }

/-! ### Exception-aware sync bodies (for the converter-throws claims)

A throwing converter is embedded as `String → Except E String`.  The JS timer
callback runs the statements in order; a throw aborts the rest of the callback
while the global state keeps whatever value it had at the throw point.  The
result pairs the outcome (`Except.error e` = the exception propagates out of
the callback, uncaught, hence reported to the environment) with the state. -/

/-- `syncCodeToVisual` body when `marked.parse` may throw
(script.js:34 evaluates `marked.parse(editor.value)` before any mutation, so a
throw leaves the whole state untouched and skips `updateGutter`/`saveToLocal`). -/
def syncCodeToVisualExc (E : Type) (parse : String → Except E String)
    (s : EditorState) : Except E Unit × EditorState :=
  match parse s.editorValue with
  | .error e => (.error e, s)
  | .ok html => (.ok (), saveToLocal (updateGutter { s with visualHTML := html }))

/-- `syncVisualToCode` body when `turndown` may throw (script.js:40). -/
def syncVisualToCodeExc (E : Type) (turndown : String → Except E String)
    (s : EditorState) : Except E Unit × EditorState :=
  match turndown s.visualHTML with
  | .error e => (.error e, s)
  | .ok md => (.ok (), saveToLocal (updateGutter { s with editorValue := md }))

/-! ### The generic debouncer (script.js:15–21)

`debounce(func, wait)` owns one `timeout` handle.  Every call to the returned
function does `clearTimeout(timeout); timeout = setTimeout(func, wait)`.  We
model an execution as a fold over a list of timestamped trigger events, each
bundling the state edit that preceded the trigger (the user edit that fired the
`input` listener); the single-threaded event loop fires a due timer before any
later event runs.  `DebRun` carries the application state, the pending fire
time, and the number of completed `func` invocations. -/

structure DebRun (σ : Type) where
  app : σ
  pending : Option Nat
  fires : Nat
  deriving Repr

/-- One event loop step: at time `ev.1`, first fire the pending timer if its
deadline has passed, then apply the state edit `ev.2` of the event and re-arm the
timer (`clearTimeout` + `setTimeout(func, wait)`). -/
def debStep {σ : Type} (wait : Nat) (func : σ → σ) (r : DebRun σ) (ev : Nat × (σ → σ)) :
    DebRun σ :=
  let r' : DebRun σ :=
    match r.pending with
    | some f => if f ≤ ev.1 then { app := func r.app, pending := none, fires := r.fires + 1 } else r
    | none => r
  { r' with app := ev.2 r'.app, pending := some (ev.1 + wait) }

/-- Quiescence: after the last trigger no further events arrive, so the pending
timer (if any) eventually fires. -/
def debFinish {σ : Type} (func : σ → σ) (r : DebRun σ) : DebRun σ :=
  match r.pending with
  | some _ => { app := func r.app, pending := none, fires := r.fires + 1 }
  | none => r

/-- A complete debounced run from `init`: process the trigger events in order,
then let the system go quiescent. -/
def runDebounce {σ : Type} (wait : Nat) (func : σ → σ) (init : σ)
    (events : List (Nat × (σ → σ))) : DebRun σ :=
  debFinish func (events.foldl (debStep wait func) ⟨init, none, 0⟩)

/-! ### Commands (script.js:51–104) -/

/-- `execCmd` (script.js:51–54): `document.execCommand(command, false, value)`
applies a browser-native rich-text edit to the focused rendered view — modelled
as an opaque state transformer `effect` — then calls `syncVisualToCode()`. -/
def execCmd (effect : EditorState → EditorState) (now : Nat) (s : SysState) : SysState :=
  triggerV2C now { s with app := effect s.app }

/-- `insertTextAtCursor` (script.js:56–75).  Both branches insert `text` at the
textarea selection and leave the caret after the inserted text; the
`insertText` branch fires the `input` event of the textarea synchronously (which
runs the listener at script.js:46, calling `syncCodeToVisual()`), the fallback
branch calls `syncCodeToVisual()` itself. -/
def insertTextAtCursor (insertTextSupported : Bool) (text : String) (selectionOffset : Nat)
    (now : Nat) (s : SysState) : SysState :=
  let insert : EditorState → EditorState := fun a =>
    let start := a.selStart
    { a with
      editorValue := jsSubstring a.editorValue 0 start ++ text
        ++ jsSubstring a.editorValue a.selEnd a.editorValue.length
      selStart := start + text.length
      selEnd := start + text.length }
  let s1 :=
    if insertTextSupported then
      -- document.execCommand with insertText edits the value and dispatches input
      triggerC2V now { s with app := insert s.app }
    else
      -- manual splice then explicit syncCodeToVisual() (script.js:63-67)
      triggerC2V now { s with app := insert s.app }
  if selectionOffset > 0 then
    let newPos := s1.app.selEnd - selectionOffset
    { s1 with app := { s1.app with selStart := newPos, selEnd := newPos } }
  else s1

/-- Result of the custom prompt for `insertImage`: the values of the `url` and
`alt` fields on confirm.  A cancelled prompt resolves to `none` overall. -/
structure ImageResult where
  url : String
  alt : String
  deriving Repr, DecidableEq

/-- Result of the custom prompt for `insertMarkdownTable`: the raw string
values of the `rows` and `cols` number fields. -/
structure TableResult where
  rows : String
  cols : String
  deriving Repr, DecidableEq

/-- Value of a list of decimal digit characters, most significant first. -/
def decDigitsVal (acc : Nat) : List Char → Nat
  | [] => acc
  | c :: cs => decDigitsVal (acc * 10 + (c.toNat - '0'.toNat)) cs

/-- Numeric value of the leading decimal-digit run of a character list;
`none` when it is empty (JavaScript `NaN`). -/
def leadingDigitsVal (l : List Char) : Option Nat :=
  match l.takeWhile Char.isDigit with
  | [] => none
  | ds => some (decDigitsVal 0 ds)

/-- JavaScript `parseInt(s)` restricted to the shapes relevant here: an
optional `-` sign followed by leading decimal digits; `none` is `NaN`. -/
def jsParseInt (s : String) : Option Int :=
  match s.data with
  | '-' :: rest => (leadingDigitsVal rest).map (fun n => -(n : Int))
  | l => (leadingDigitsVal l).map (fun n => (n : Int))

/-- JavaScript `v || dflt` applied to a `parseInt` result: `NaN` and `0` are
falsy, every other number is kept. -/
def jsNumOr (v : Option Int) (dflt : Int) : Int :=
  match v with
  | none => dflt
  | some 0 => dflt
  | some n => n

/-- `insertImage` (script.js:81–87) with the prompt already resolved:
`none` = cancelled, nothing happens; on confirm the markdown image reference is
inserted (`results.alt || default`: an empty alt falls back to the default). -/
def insertImage (insertTextSupported : Bool) (results : Option ImageResult)
    (now : Nat) (s : SysState) : SysState :=
  match results with
  | none => s
  | some r =>
    let alt := if r.alt = "" then "תמונה" else r.alt
    insertTextAtCursor insertTextSupported ("![" ++ alt ++ "](" ++ r.url ++ ")\n\n") 0 now s

/-- The header row built at script.js:99 for a given column count. -/
def tableHeader (cols : Nat) : String :=
  "| " ++ String.intercalate " | " ((List.range cols).map (fun i => "כותרת " ++ toString (i + 1)))
    ++ " |\n"

/-- The separator row built at script.js:100. -/
def tableSep (cols : Nat) : String :=
  "| " ++ String.intercalate " | " (List.replicate cols "---") ++ " |\n"

/-- One data row as built at script.js:101. -/
def tableDataRow (cols : Nat) : String :=
  "| " ++ String.intercalate " | " (List.replicate cols "נתונים") ++ " |\n"

/-- The clamped row count (script.js:96): `Math.max(2, parseInt(results.rows) || 3)`. -/
def tableRowCount (r : TableResult) : Int := max 2 (jsNumOr (jsParseInt r.rows) 3)

/-- The clamped column count (script.js:97): `Math.max(1, parseInt(results.cols) || 2)`. -/
def tableColCount (r : TableResult) : Int := max 1 (jsNumOr (jsParseInt r.cols) 2)

/-- The full text inserted by `insertMarkdownTable` (script.js:99–103):
`` `\n${header}${sep}${data}\n` `` with the data row repeated `rows - 1` times. -/
def tableText (r : TableResult) : String :=
  let rows := (tableRowCount r).toNat
  let cols := (tableColCount r).toNat
  "\n" ++ tableHeader cols ++ tableSep cols
    ++ String.join (List.replicate (rows - 1) (tableDataRow cols)) ++ "\n"

/-- `insertMarkdownTable` (script.js:89–104) with the prompt already resolved:
`none` = cancelled (`if (!results) return;`). -/
def insertMarkdownTable (insertTextSupported : Bool) (results : Option TableResult)
    (now : Nat) (s : SysState) : SysState :=
  match results with
  | none => s
  | some r => insertTextAtCursor insertTextSupported (tableText r) 0 now s

/-- `clearAll` (script.js:167–174): when the user confirms, empty both
representations directly, recompute the gutter and persist; no converter and no
debounced wrapper is invoked. -/
def clearAll (confirmed : Bool) (s : SysState) : SysState :=
  if confirmed then
    { s with app := saveToLocal (updateGutter
        { s.app with editorValue := "", visualHTML := "" }) }
  else s

/-- The built-in default welcome document (script.js:179). -/
def defaultDoc : String := "# עורך היברידי\n\nהתחל לכתוב..."

/-- `window.onload` (script.js:177–182): read the persisted slot,
`editor.value = saved || default` (absent and empty both fall back to the
default), then call the debounced `syncCodeToVisual()`. -/
def windowOnload (now : Nat) (s : SysState) : SysState :=
  let v :=
    match s.app.localStorage with
    | none => defaultDoc
    | some str => if str = "" then defaultDoc else str
  triggerC2V now { s with app := { s.app with editorValue := v } }

/-- The number of pipe characters in a string. -/
def pipeCount (s : String) : Nat := s.data.countP (fun c => c = '|')

/-- The number of cells of a markup table row `| c₁ | … | cₙ |`: one less than
the number of `|` delimiters. -/
def rowCellCount (row : String) : Nat := pipeCount row - 1

/-! ## Claim theorems -/

/-- C1: when the markup-direction sync fires with MarkupText `m`
(`m = s.app.editorValue`), afterwards the RichTree equals the Markup→Tree
conversion of `m`, the persisted value equals `m` (the MarkupText itself is
untouched), and the gutter has been recomputed for `m` — in the source the
gutter recomputation (`updateGutter()`) runs before `saveToLocal()`. -/
theorem markupSync_correct (parse : String → String) (s : SysState) :
    (fireC2V parse s).app.visualHTML = parse s.app.editorValue ∧
    (fireC2V parse s).app.localStorage = some s.app.editorValue ∧
    (fireC2V parse s).app.editorValue = s.app.editorValue ∧
    (fireC2V parse s).app.gutterHTML = gutterFor s.app.editorValue :=
  ⟨rfl, rfl, rfl, rfl⟩

/-- C2: when the tree-direction sync fires with RichTree `t`
(`t = s.app.visualHTML`), afterwards the MarkupText equals the Tree→Markup
conversion of `t`, and the persisted value is exactly that converted markup
text (the persisted artifact is the markup form in this direction too); the
RichTree itself is untouched. -/
theorem treeSync_correct (turndown : String → String) (s : SysState) :
    (fireV2C turndown s).app.editorValue = turndown s.app.visualHTML ∧
    (fireV2C turndown s).app.localStorage = some (turndown s.app.visualHTML) ∧
    (fireV2C turndown s).app.visualHTML = s.app.visualHTML ∧
    (fireV2C turndown s).app.gutterHTML = gutterFor (turndown s.app.visualHTML) :=
  ⟨rfl, rfl, rfl, rfl⟩

/-- C4: a sync that fires never schedules another sync: the programmatic
replacement of the target representation (`visual.innerHTML` by the
markup→tree sync, `editor.value` by the tree→markup sync) dispatches no
`input` event, so neither listener runs — after a fire the firing direction
has no pending invocation, the other direction is exactly as before, and no
trigger call of either wrapper has occurred. -/
theorem sync_no_feedback (parse turndown : String → String) (s : SysState) :
    ((fireC2V parse s).c2vPending = none ∧
     (fireC2V parse s).v2cPending = s.v2cPending ∧
     (fireC2V parse s).c2vTriggers = s.c2vTriggers ∧
     (fireC2V parse s).v2cTriggers = s.v2cTriggers) ∧
    ((fireV2C turndown s).v2cPending = none ∧
     (fireV2C turndown s).c2vPending = s.c2vPending ∧
     (fireV2C turndown s).c2vTriggers = s.c2vTriggers ∧
     (fireV2C turndown s).v2cTriggers = s.v2cTriggers) :=
  ⟨⟨rfl, rfl, rfl, rfl⟩, ⟨rfl, rfl, rfl, rfl⟩⟩

/-- C5: if a converter throws during a sync (in either direction), that sync
leaves the entire editor state — MarkupText, RichTree, gutter, persisted slot
— exactly at its value from before the sync and persists nothing; the error
propagates out of the timer callback (`Except.error e` in the result), where
the environment reports it, and nothing beyond this one sync is affected. -/
theorem conversionFailure_aborts_sync (E : Type) (parse turndown : String → Except E String)
    (s : EditorState) (e e' : E) :
    (parse s.editorValue = Except.error e →
      syncCodeToVisualExc E parse s = (Except.error e, s)) ∧
    (turndown s.visualHTML = Except.error e' →
      syncVisualToCodeExc E turndown s = (Except.error e', s)) := by
  constructor
  · intro h
    unfold syncCodeToVisualExc
    rw [h]
  · intro h
    unfold syncVisualToCodeExc
    rw [h]

/-- Witness for C5 at a concrete state and concretely throwing converters. -/
theorem conversionFailure_aborts_sync_witness :
    syncCodeToVisualExc String (fun _ => Except.error "boom")
        ⟨"# a", "<p>a</p>", "1", some "# a", 0, 0⟩ =
      (Except.error "boom", ⟨"# a", "<p>a</p>", "1", some "# a", 0, 0⟩) ∧
    syncVisualToCodeExc String (fun _ => Except.error "bust")
        ⟨"# a", "<p>a</p>", "1", some "# a", 0, 0⟩ =
      (Except.error "bust", ⟨"# a", "<p>a</p>", "1", some "# a", 0, 0⟩) :=
  ⟨(conversionFailure_aborts_sync String (fun _ => Except.error "boom")
      (fun _ => Except.error "bust") ⟨"# a", "<p>a</p>", "1", some "# a", 0, 0⟩
      "boom" "bust").1 rfl,
   (conversionFailure_aborts_sync String (fun _ => Except.error "boom")
      (fun _ => Except.error "bust") ⟨"# a", "<p>a</p>", "1", some "# a", 0, 0⟩
      "boom" "bust").2 rfl⟩

/-- C8: if the structured-input prompt of a parameter-collecting command
(insert-image, insert-table) resolves to `none` (cancelled), the whole system
state is unchanged: MarkupText, RichTree, the persisted slot, the selection,
both pending timers and both trigger counters — no text inserted, no sync
scheduled. -/
theorem promptCancelled_aborts (insertTextSupported : Bool) (now : Nat) (s : SysState) :
    insertImage insertTextSupported none now s = s ∧
    insertMarkdownTable insertTextSupported none now s = s :=
  ⟨rfl, rfl⟩

/-- C7: confirming the insert-table command with rows = 3, cols = 2 inserts at
the cursor a markup table block whose lines are exactly one header row with 2
cells, one separator row with 2 cells, and exactly 2 data rows (the split of
the inserted text at newlines is fully enumerated, so no further rows exist);
the insertion triggers exactly one markup→tree sync — the markup-direction
trigger count rises by exactly one, a single markup→tree invocation is
pending, and the tree-direction wrapper is untouched. -/
theorem insertTable_3x2 (insertTextSupported : Bool) (now : Nat) (s : SysState) :
    jsSplitNewline (tableText ⟨"3", "2"⟩) =
      ["", "| כותרת 1 | כותרת 2 |", "| --- | --- |",
       "| נתונים | נתונים |", "| נתונים | נתונים |", "", ""] ∧
    rowCellCount "| כותרת 1 | כותרת 2 |" = 2 ∧
    rowCellCount "| --- | --- |" = 2 ∧
    rowCellCount "| נתונים | נתונים |" = 2 ∧
    (insertMarkdownTable insertTextSupported (some ⟨"3", "2"⟩) now s).app.editorValue =
      jsSubstring s.app.editorValue 0 s.app.selStart ++ tableText ⟨"3", "2"⟩
        ++ jsSubstring s.app.editorValue s.app.selEnd s.app.editorValue.length ∧
    (insertMarkdownTable insertTextSupported (some ⟨"3", "2"⟩) now s).c2vTriggers =
      s.c2vTriggers + 1 ∧
    (insertMarkdownTable insertTextSupported (some ⟨"3", "2"⟩) now s).v2cTriggers =
      s.v2cTriggers ∧
    (insertMarkdownTable insertTextSupported (some ⟨"3", "2"⟩) now s).c2vPending =
      some (now + syncDelay) := by
  refine ⟨by decide, by decide, by decide, by decide, ?_, ?_, ?_, ?_⟩ <;>
    cases insertTextSupported <;> rfl

/-- C6 (counterexample): the clear-document command bypasses the Sync
Controller.  Starting from a synced state whose Markup→Tree converter is
`fun _ => "<p>X</p>"` (so RichTree = converter MarkupText holds initially), a
confirmed `clearAll` performs no trigger call and leaves no sync pending, yet
afterwards the RichTree does not equal the converter applied to the
MarkupText: the command mutates both representations directly without
funnelling through the sync path. -/
theorem clearAll_bypasses_sync_counterexample :
    (clearAll true ⟨⟨"# a", "<p>X</p>", "1", some "# a", 0, 0⟩, none, none, 0, 0⟩).c2vTriggers
        = 0 ∧
    (clearAll true ⟨⟨"# a", "<p>X</p>", "1", some "# a", 0, 0⟩, none, none, 0, 0⟩).v2cTriggers
        = 0 ∧
    (clearAll true ⟨⟨"# a", "<p>X</p>", "1", some "# a", 0, 0⟩, none, none, 0, 0⟩).c2vPending
        = none ∧
    (clearAll true ⟨⟨"# a", "<p>X</p>", "1", some "# a", 0, 0⟩, none, none, 0, 0⟩).v2cPending
        = none ∧
    (clearAll true ⟨⟨"# a", "<p>X</p>", "1", some "# a", 0, 0⟩, none, none, 0, 0⟩).app.visualHTML
        ≠ (fun (_ : String) => "<p>X</p>")
          (clearAll true ⟨⟨"# a", "<p>X</p>", "1", some "# a", 0, 0⟩, none, none, 0, 0⟩).app.editorValue := by
  refine ⟨rfl, rfl, rfl, rfl, ?_⟩
  decide

/-- C6 (amended): `execCmd` funnels through the sync path — it performs
exactly one tree→markup trigger call, leaving a tree→markup sync pending and
the markup-direction wrapper untouched.  The clear-document command does not:
when confirmed it sets both representations to empty directly, recomputes the
gutter and persists the empty markup itself, performing no trigger call and
leaving both pending timers exactly as they were; when not confirmed it does
nothing. -/
theorem commands_and_sync_path (effect : EditorState → EditorState) (now : Nat) (s : SysState) :
    ((execCmd effect now s).v2cTriggers = s.v2cTriggers + 1 ∧
     (execCmd effect now s).v2cPending = some (now + syncDelay) ∧
     (execCmd effect now s).c2vTriggers = s.c2vTriggers ∧
     (execCmd effect now s).c2vPending = s.c2vPending) ∧
    ((clearAll true s).app.editorValue = "" ∧
     (clearAll true s).app.visualHTML = "" ∧
     (clearAll true s).app.localStorage = some "" ∧
     (clearAll true s).app.gutterHTML = gutterFor "" ∧
     (clearAll true s).c2vPending = s.c2vPending ∧
     (clearAll true s).v2cPending = s.v2cPending ∧
     (clearAll true s).c2vTriggers = s.c2vTriggers ∧
     (clearAll true s).v2cTriggers = s.v2cTriggers) ∧
    clearAll false s = s :=
  ⟨⟨rfl, rfl, rfl, rfl⟩, ⟨rfl, rfl, rfl, rfl, rfl, rfl, rfl, rfl⟩, rfl⟩

/-- C9: at session start with no persisted value, `window.onload` sets the
MarkupText to the built-in default welcome document and calls the debounced
markup→tree sync; when that initial sync fires, the RichTree equals the
Markup→Tree conversion of the default document. -/
theorem initialLoad_default (parse : String → String) (now : Nat) (s : SysState)
    (h : s.app.localStorage = none) :
    (windowOnload now s).app.editorValue = defaultDoc ∧
    (windowOnload now s).c2vPending = some (now + syncDelay) ∧
    (fireC2V parse (windowOnload now s)).app.visualHTML = parse defaultDoc := by
  unfold windowOnload
  rw [h]
  exact ⟨rfl, rfl, rfl⟩

/-- Witness for C9 at a concrete empty-storage state. -/
theorem initialLoad_default_witness :
    (windowOnload 0 ⟨⟨"", "", "", none, 0, 0⟩, none, none, 0, 0⟩).app.editorValue = defaultDoc ∧
    (windowOnload 0 ⟨⟨"", "", "", none, 0, 0⟩, none, none, 0, 0⟩).c2vPending = some (0 + syncDelay) ∧
    (fireC2V (fun m => "<div>" ++ m ++ "</div>")
        (windowOnload 0 ⟨⟨"", "", "", none, 0, 0⟩, none, none, 0, 0⟩)).app.visualHTML =
      "<div>" ++ defaultDoc ++ "</div>" :=
  initialLoad_default (fun m => "<div>" ++ m ++ "</div>") 0
    ⟨⟨"", "", "", none, 0, 0⟩, none, none, 0, 0⟩ rfl

/-- C10: at session start a persisted value that is present but equal to the
empty string is treated like an absent one — `editor.value = saved || default`
takes the default branch on the empty string, so the MarkupText is initialized
to the built-in default document, not to the empty document. -/
theorem emptyPersisted_treatedAsAbsent (now : Nat) (s : SysState)
    (h : s.app.localStorage = some "") :
    (windowOnload now s).app.editorValue = defaultDoc := by
  unfold windowOnload
  rw [h]
  rfl

/-- Witness for C10 at a concrete state persisting the empty string. -/
theorem emptyPersisted_treatedAsAbsent_witness :
    (windowOnload 7 ⟨⟨"x", "y", "1", some "", 2, 3⟩, none, none, 0, 0⟩).app.editorValue =
      defaultDoc :=
  emptyPersisted_treatedAsAbsent 7 ⟨⟨"x", "y", "1", some "", 2, 3⟩, none, none, 0, 0⟩ rfl

/-- Helper for the debounce property: while every next trigger arrives before
the pending deadline (`y < x + wait` between consecutive trigger times), the
fold over the trigger events never fires the action — it only applies the
user edits in order and keeps re-arming the timer to the newest deadline. -/
theorem debStep_foldl_within {σ : Type} (wait : Nat) (func : σ → σ) :
    ∀ (events : List (Nat × (σ → σ))) (t : Nat) (a : σ) (k : Nat),
      List.Chain (fun x y => y < x + wait) t (events.map Prod.fst) →
      events.foldl (debStep wait func) ⟨a, some (t + wait), k⟩ =
        ⟨events.foldl (fun x e => e.2 x) a,
         some (events.foldl (fun (_ : Nat) e => e.1) t + wait), k⟩
  | [], t, a, k, _ => rfl
  | (t', f') :: rest, t, a, k, h => by
    rw [List.map_cons, List.chain_cons] at h
    have hlt : ¬ (t + wait ≤ t') := Nat.not_le.mpr h.1
    have hstep : debStep wait func ⟨a, some (t + wait), k⟩ (t', f') =
        ⟨f' a, some (t' + wait), k⟩ := by
      simp [debStep, hlt]
    rw [List.foldl_cons, hstep, debStep_foldl_within wait func rest t' (f' a) k h.2]
    rfl

/-- C3: for every N ≥ 1 (the event list is `(t₀, f₀) :: rest`), triggering a
debounced wrapper N times within one debounce window — each trigger arriving
strictly before the deadline armed by the previous one — results in exactly
one invocation of the wrapped action (`fires = 1`), and that invocation reads
the state as it is at fire time: the action is applied to the state after all
N user edits, because each trigger cancels the previously scheduled
invocation before scheduling a new one. -/
theorem debounce_coalesces {σ : Type} (wait : Nat) (func : σ → σ) (init : σ)
    (t₀ : Nat) (f₀ : σ → σ) (rest : List (Nat × (σ → σ)))
    (h : List.Chain (fun x y => y < x + wait) t₀ (rest.map Prod.fst)) :
    runDebounce wait func init ((t₀, f₀) :: rest) =
      ⟨func (rest.foldl (fun x e => e.2 x) (f₀ init)), none, 1⟩ := by
  unfold runDebounce
  rw [List.foldl_cons]
  have h0 : debStep wait func ⟨init, none, 0⟩ (t₀, f₀) = ⟨f₀ init, some (t₀ + wait), 0⟩ := rfl
  rw [h0, debStep_foldl_within wait func rest t₀ (f₀ init) 0 h]
  rfl

/-- Witness for C3: three triggers at times 0, 10, 20 with `wait = 50` — each
within the window of the previous one — yield exactly one action invocation,
applied to the state after all three edits: `((0 + 1) * 2 + 5) + 100 = 107`. -/
theorem debounce_coalesces_witness :
    List.Chain (fun x y => y < x + 50) 0 [10, 20] ∧
    runDebounce 50 (fun n => n + 100) 0
        [(0, fun n => n + 1), (10, fun n => n * 2), (20, fun n => n + 5)] =
      ⟨107, none, 1⟩ :=
  ⟨List.Chain.cons (by decide) (List.Chain.cons (by decide) List.Chain.nil),
   debounce_coalesces 50 (fun n => n + 100) 0 0 (fun n => n + 1)
     [(10, fun n => n * 2), (20, fun n => n + 5)]
     (List.Chain.cons (by decide) (List.Chain.cons (by decide) List.Chain.nil))⟩
